import Mathlib

/-!
Verification development for `ids/identity.py` of the pypush repository.

The file shallowly embeds the two components the specification describes:

* the `IDSIdentity` binary container codec (`IDSIdentity.decode`,
  `IDSIdentity.encode`), and
* the pure parts of `register`: the construction of the registration
  request body and the validation/extraction of the registration
  response.

Byte strings are modelled as `List Nat` (each element a byte value);
Python's `int.from_bytes(_, "big")` and `int.to_bytes(len, "big")` become
`fromBytesBE` / `toBytesBE`, with `Option` capturing `OverflowError`.
Python `assert` failures and uncaught `KeyError`/`IndexError` are modelled
by `Option`/explicit outcome constructors as noted at each definition.

Key objects are modelled by their public numbers: `serialize_key` /
`parse_key` from `ids/_helpers.py` are an external serialization bijection
(out of scope per the spec, §1), so a key value is represented directly by
the record of numbers that `public_numbers()` would expose, and private
key material by an opaque payload.
-/

namespace Pypush

/-! ## Definitions: the shallow embedding of `ids/identity.py` -/

/-- Big-endian interpretation of a byte list; models
`int.from_bytes(bs, "big")`. -/
def fromBytesBE (l : List Nat) : Nat :=
  l.foldl (fun a b => a * 256 + b) 0

/-- The big-endian, zero-padded, fixed-width byte expansion of `n` to
`k` bytes (the value written by `int.to_bytes(k, "big")` when it fits). -/
def toBytesBEAux : Nat → Nat → List Nat
  | 0, _ => []
  | k + 1, n => toBytesBEAux k (n / 256) ++ [n % 256]

/-- Models `n.to_bytes(k, "big")`: `none` is Python's `OverflowError`
when `n` does not fit into `k` bytes. -/
def toBytesBE (k n : Nat) : Option (List Nat) :=
  if n < 256 ^ k then some (toBytesBEAux k n) else none

/-- Elliptic curves as named by the external crypto provider; the source
only ever constructs `SECP256R1`, but an identity handed to `encode` may
in principle hold a key on another curve. -/
inductive ECCurve where
  | secp256r1
  | secp192r1
  | secp384r1
deriving DecidableEq, Repr

/-- Public numbers of an EC public key
(`cryptography.hazmat.primitives.asymmetric.ec.EllipticCurvePublicNumbers`). -/
structure EllipticCurvePublicNumbers where
  x : Nat
  y : Nat
  curve : ECCurve
deriving DecidableEq, Repr

/-- Public numbers of an RSA public key
(`cryptography.hazmat.primitives.asymmetric.rsa.RSAPublicNumbers`). -/
structure RSAPublicNumbers where
  n : Nat
  e : Nat
deriving DecidableEq, Repr

/-- The `IDSIdentity` object of `ids/identity.py`.  The private-key slots
hold the serialized private keys when present (`None` otherwise); their
contents are opaque to the code under study, so they are modelled as an
opaque `Nat` payload.  The public-key slots hold the public numbers that
`parse_key(...)` followed by `.public_numbers()` would expose. -/
structure IDSIdentity where
  signing_key : Option Nat
  encryption_key : Option Nat
  signing_public_key : EllipticCurvePublicNumbers
  encryption_public_key : RSAPublicNumbers
deriving DecidableEq, Repr

/-- The `IDSIdentity.__init__` call shape used by `decode`
(`IDSIdentity(signing_public_key=..., encryption_public_key=...)`):
both private slots are set to `None` and the given public keys are
stored unchanged (lines 31-33 and 42-44 of `identity.py`). -/
def IDSIdentity.ofPublicKeys (spk : EllipticCurvePublicNumbers)
    (epk : RSAPublicNumbers) : IDSIdentity :=
  { signing_key := none
    encryption_key := none
    signing_public_key := spk
    encryption_public_key := epk }

/-- The 5-byte outer DER header `b"\x30\x81\xF6\x81\x43"`. -/
def derOuterHeader : List Nat := [0x30, 0x81, 0xF6, 0x81, 0x43]

/-- The 3-byte EC point-format tag `b"\x00\x41\x04"`. -/
def ecPointTag : List Nat := [0x00, 0x41, 0x04]

/-- The 3-byte separator tag `b"\x82\x81\xAE"` between the EC and RSA
blocks. -/
def sepTag : List Nat := [0x82, 0x81, 0xAE]

/-- The 2-byte RSA block prefix `b"\x00\xAC"`. -/
def rsaPrefixTag : List Nat := [0x00, 0xAC]

/-- The 3-byte inner DER header `b"\x30\x81\xA9"` of the RSA block. -/
def rsaInnerTag : List Nat := [0x30, 0x81, 0xA9]

/-- The 3-byte length tag `b"\x02\x81\xA1"` of the RSA block. -/
def rsaLenTag : List Nat := [0x02, 0x81, 0xA1]

/-- The 5-byte exponent trailer `b"\x02\x03\x01\x00\x01"`, the DER
encoding of the fixed public exponent 65537. -/
def rsaExpTrailer : List Nat := [0x02, 0x03, 0x01, 0x00, 0x01]

/-- `IDSIdentity.decode` (lines 49-84 of `identity.py`).  Sequential
reads from the input stream become `take`/`drop` at the running offset;
each Python `assert` contributes one conjunct of the guard, and a failed
guard (an `AssertionError`, the spec's `MalformedIdentity`) yields
`none`.  On success the identity is built through the public-only
constructor call, exactly like the source; the external crypto
provider's own validation of the resulting numbers is out of scope
(spec §1). -/
def IDSIdentity.decode (inp : List Nat) : Option IDSIdentity :=
  let hdr := inp.take 5
  let r1 := inp.drop 5
  let raw_ecdsa := r1.take 67
  let r2 := r1.drop 67
  let sep := r2.take 3
  let raw_rsa := (r2.drop 3).take 174
  if hdr = derOuterHeader ∧ sep = sepTag ∧
      raw_rsa.take 2 = rsaPrefixTag ∧
      (raw_rsa.drop 2).take 3 = rsaInnerTag ∧
      (raw_rsa.drop 5).take 3 = rsaLenTag ∧
      (raw_rsa.drop 169).take 5 = rsaExpTrailer ∧
      raw_ecdsa.take 3 = ecPointTag then
    let rsa_modulus := fromBytesBE ((raw_rsa.drop 8).take 161)
    let ecBody := raw_ecdsa.drop 3
    let ec_x := fromBytesBE (ecBody.take 32)
    let ec_y := fromBytesBE (ecBody.drop 32)
    some (IDSIdentity.ofPublicKeys
      { x := ec_x, y := ec_y, curve := ECCurve.secp256r1 }
      { n := rsa_modulus, e := 65537 })
  else
    none

/-- `IDSIdentity.encode` (lines 86-104 of `identity.py`).  The three
`to_bytes` calls are the only fallible steps (`OverflowError` when a
number exceeds its fixed field width, the spec's `UnsupportedKeyShape`);
the exponent trailer is hardcoded and the curve and exponent of the
stored keys are never inspected.  `none` models the raised error. -/
def IDSIdentity.encode (self : IDSIdentity) : Option (List Nat) :=
  (toBytesBE 161 self.encryption_public_key.n).bind fun nb =>
    (toBytesBE 32 self.signing_public_key.x).bind fun xb =>
      (toBytesBE 32 self.signing_public_key.y).bind fun yb =>
        some (derOuterHeader ++ ecPointTag ++ xb ++ yb ++ sepTag ++
          (rsaPrefixTag ++ rsaInnerTag ++ rsaLenTag ++ nb ++ rsaExpTrailer))

/-- A concrete identity that carries private key material and whose
public keys satisfy the shape constraints. -/
def sampleIdentity : IDSIdentity :=
  { signing_key := some 7
    encryption_key := some 9
    signing_public_key := { x := 1, y := 2, curve := ECCurve.secp256r1 }
    encryption_public_key := { n := 17, e := 65537 } }

/-- An identity whose RSA public exponent is 3 rather than 65537 (with
a small modulus and an in-range EC point). -/
def badExponentIdentity : IDSIdentity :=
  { signing_key := none
    encryption_key := none
    signing_public_key := { x := 1, y := 2, curve := ECCurve.secp256r1 }
    encryption_public_key := { n := 5, e := 3 } }

/-- A concrete well-formed 249-byte container: X = 1, Y = 2,
modulus = 17. -/
def sampleContainer : List Nat :=
  derOuterHeader ++ ecPointTag ++ toBytesBEAux 32 1 ++ toBytesBEAux 32 2 ++ sepTag ++
    (rsaPrefixTag ++ rsaInnerTag ++ rsaLenTag ++ toBytesBEAux 161 17 ++ rsaExpTrailer)

/-- A value of the plist dictionary that `register` builds: the
client-data maps mix booleans, integers, the float literals `2.0` and
`12.0` (integral constants, represented by their integer value), strings
and byte blobs. -/
inductive PValue where
  | bool (b : Bool)
  | int (i : Int)
  | real (r : Int)
  | str (s : String)
  | data (d : List Nat)
deriving DecidableEq, Repr

/-- One entry of a `capabilities` list. -/
structure Capability where
  flags : Nat
  name : String
  version : Nat
deriving DecidableEq, Repr

/-- One `{"uri": handle}` dictionary of the `uris` list (line 117). -/
structure Uri where
  uri : String
deriving DecidableEq, Repr

/-- The single element of a catalog entry's `users` list. -/
structure ServiceUser where
  client_data : List (String × PValue)
  kt_loggable_data : Option (List Nat)
  uris : List Uri
  user_id : String
deriving DecidableEq, Repr

/-- One entry of the `services` list of the request body. -/
structure ServiceEntry where
  capabilities : List Capability
  service : String
  sub_services : List String
  users : List ServiceUser
deriving DecidableEq, Repr

/-- The `private-device-data` dictionary: `u` is the uppercase hex of a
fresh `uuid4`, external randomness injected as a parameter. -/
structure PrivateDeviceData where
  u : String
deriving DecidableEq, Repr

/-- The registration request body (the `body` dictionary of `register`,
lines 120-315), before plist serialization. -/
structure RegisterBody where
  device_name : String
  hardware_version : String
  language : String
  os_version : String
  software_version : String
  private_device_data : PrivateDeviceData
  services : List ServiceEntry
  validation_data : List Nat
deriving DecidableEq, Repr

/-- Value of one base64 alphabet character (`A-Z`, `a-z`, `0-9`, `+`,
`/`), by ASCII code. -/
def b64val (c : Nat) : Option Nat :=
  if 65 ≤ c ∧ c ≤ 90 then some (c - 65)
  else if 97 ≤ c ∧ c ≤ 122 then some (c - 97 + 26)
  else if 48 ≤ c ∧ c ≤ 57 then some (c - 48 + 52)
  else if c = 43 then some 62
  else if c = 47 then some 63
  else none

/-- Decode a run of base64 data characters: each full 4-character
quantum yields 3 bytes, a trailing group of 3 yields 2 bytes and of 2
yields 1 byte. -/
def b64decodeQuanta : List Nat → List Nat
  | a :: b :: c :: d :: rest =>
    let v := ((b64val a).getD 0) * 262144 + ((b64val b).getD 0) * 4096 +
      ((b64val c).getD 0) * 64 + (b64val d).getD 0
    v / 65536 :: (v / 256) % 256 :: v % 256 :: b64decodeQuanta rest
  | [a, b, c] =>
    let v := ((b64val a).getD 0) * 4096 + ((b64val b).getD 0) * 64 + (b64val c).getD 0
    [v / 1024, (v / 4) % 256]
  | [a, b] =>
    let v := ((b64val a).getD 0) * 64 + (b64val b).getD 0
    [v / 16]
  | _ => []

/-- Modelled from the spec: `base64.b64decode` of the Python standard
library, applied to `validation_data` on line 314 (the function itself
is external to the repository; the spec treats serialization helpers as
external collaborators).  Characters outside the base64 alphabet are
discarded, the remaining characters must form whole 4-character quanta
together with the `=` padding, and the 6-bit groups are reassembled into
bytes; `none` models the raised `binascii.Error`. -/
def b64decode (input : List Nat) : Option (List Nat) :=
  let cs := input.filter (fun c => (b64val c).isSome || c == 61)
  let ds := cs.takeWhile (fun c => c ≠ 61)
  if cs.length % 4 = 0 ∧ ds.length % 4 ≠ 1 then some (b64decodeQuanta ds)
  else none

/-- An armoured certificate.  Modelled from the spec: `armour_cert`
(from `ids/signing.py`, not part of the sources under study) is an
external format-preserving textual wrapping of a certificate blob, so it
is modelled as an injective wrapper. -/
structure ArmouredCert where
  raw : Nat
deriving DecidableEq, Repr

/-- The armour transform applied to each extracted certificate. -/
def armour_cert (c : Nat) : ArmouredCert := { raw := c }

/-- The hardcoded `public-message-ngm-device-prekey-data-key` byte literal of the facetime.multi entry (line 188 of `identity.py`). -/
def facetimePrekeyBlob : List Nat :=
  [10, 32, 180, 92, 21, 142, 164, 200, 229, 7, 152, 9, 112, 208, 164, 94, 132, 107, 5, 35, 69,
   112, 169, 42, 205, 173, 116, 245, 176, 251, 166, 95, 104, 111, 18, 64, 227, 245, 202, 79, 119,
   104, 253, 185, 236, 68, 9, 14, 158, 184, 176, 161, 28, 61, 146, 157, 68, 47, 108, 109, 76,
   222, 46, 92, 111, 235, 21, 62, 159, 174, 217, 249, 209, 156, 42, 141, 85, 224, 210, 222, 111,
   178, 203, 216, 248, 105, 212, 208, 97, 94, 9, 33, 15, 97, 178, 221, 73, 252, 95, 42, 25, 178,
   240, 35, 18, 224, 64, 217, 65]

/-- The hardcoded `public-message-identity-key` byte literal of the facetime.multi entry (line 190 of `identity.py`): a fixed captured container, not the encoding of the caller-supplied identity. -/
def facetimeIdentityKeyBlob : List Nat :=
  [48, 129, 246, 129, 67, 0, 65, 4, 135, 30, 235, 228, 117, 11, 163, 158, 156, 188, 248, 114, 75,
   30, 254, 52, 52, 37, 102, 36, 29, 232, 187, 198, 189, 67, 68, 156, 107, 118, 32, 75, 193, 30,
   177, 223, 52, 200, 83, 54, 15, 146, 208, 61, 30, 132, 156, 197, 165, 182, 183, 125, 221, 236,
   30, 30, 216, 81, 216, 202, 219, 7, 39, 199, 130, 129, 174, 0, 172, 48, 129, 169, 2, 129, 161,
   0, 168, 32, 252, 159, 166, 176, 86, 50, 206, 28, 167, 19, 158, 3, 209, 216, 151, 97, 187, 221,
   172, 134, 184, 16, 40, 137, 19, 81, 80, 143, 240, 43, 69, 80, 209, 176, 54, 238, 148, 205,
   168, 158, 241, 237, 112, 164, 151, 50, 54, 30, 233, 171, 212, 203, 172, 5, 215, 140, 63, 187,
   162, 222, 44, 254, 13, 26, 185, 136, 87, 64, 153, 236, 160, 93, 13, 26, 62, 100, 86, 178, 64,
   197, 80, 243, 109, 128, 121, 245, 160, 71, 174, 216, 104, 146, 239, 202, 133, 203, 66, 237,
   169, 87, 140, 19, 212, 79, 219, 89, 73, 50, 220, 77, 31, 246, 99, 23, 28, 209, 118, 221, 188,
   99, 172, 44, 38, 86, 253, 7, 160, 195, 159, 0, 31, 198, 228, 2, 117, 18, 112, 143, 226, 176,
   20, 250, 105, 18, 187, 166, 154, 54, 81, 165, 222, 43, 158, 123, 207, 200, 27, 125, 2, 3, 1,
   0, 1]

/-- The hardcoded `device-key-signature` byte literal of the facetime.multi entry (line 198 of `identity.py`). -/
def facetimeDeviceKeySignatureBlob : List Nat :=
  [48, 97, 4, 20, 29, 176, 50, 126, 239, 107, 38, 248, 13, 59, 82, 164, 149, 99, 126, 138, 144,
   72, 133, 176, 2, 1, 1, 4, 70, 48, 68, 2, 32, 64, 206, 167, 80, 54, 137, 146, 87, 102, 135,
   201, 197, 77, 45, 177, 229, 81, 159, 127, 75, 105, 27, 112, 213, 18, 28, 44, 58, 219, 237, 8,
   18, 2, 32, 108, 253, 92, 226, 211, 58, 44, 193, 216, 8, 124, 190, 5, 77, 18, 238, 64, 194, 61,
   101, 82, 56, 58, 167, 104, 51, 117, 124, 131, 105, 97, 25]

/-- The hardcoded `kt-loggable-data` byte literal of the facetime.multi user entry (line 200 of `identity.py`). -/
def facetimeKtLoggableBlob : List Nat :=
  [10, 34, 10, 32, 13, 108, 190, 202, 247, 232, 178, 137, 107, 24, 30, 185, 44, 100, 248, 226,
   10, 191, 141, 225, 69, 214, 243, 84, 203, 217, 153, 100, 209, 109, 107, 235, 16, 12, 24, 5]

/-- The client-data map of the `com.apple.madrid` catalog entry
(dictionary-literal order preserved). -/
def madridClientData (ik : List Nat) : List (String × PValue) :=
  [("is-c2k-equipment", PValue.bool true),
   ("optionally-receive-typing-indicators", PValue.bool true),
   ("public-message-identity-key", PValue.data ik),
   ("public-message-identity-version", PValue.int 2),
   ("show-peer-errors", PValue.bool true),
   ("supports-ack-v1", PValue.bool true),
   ("supports-activity-sharing-v1", PValue.bool true),
   ("supports-audio-messaging-v2", PValue.bool true),
   ("supports-autoloopvideo-v1", PValue.bool true),
   ("supports-be-v1", PValue.bool true),
   ("supports-ca-v1", PValue.bool true),
   ("supports-fsm-v1", PValue.bool true),
   ("supports-fsm-v2", PValue.bool true),
   ("supports-fsm-v3", PValue.bool true),
   ("supports-ii-v1", PValue.bool true),
   ("supports-impact-v1", PValue.bool true),
   ("supports-inline-attachments", PValue.bool true),
   ("supports-keep-receipts", PValue.bool true),
   ("supports-location-sharing", PValue.bool true),
   ("supports-media-v2", PValue.bool true),
   ("supports-photos-extension-v1", PValue.bool true),
   ("supports-st-v1", PValue.bool true),
   ("supports-update-attachments-v1", PValue.bool true)]

/-- The `com.apple.madrid` entry of the static service catalog. -/
def madridService (ik : List Nat) (uris : List Uri) (user_id : String) : ServiceEntry :=
  { capabilities := [{ flags := 1, name := "Messenger", version := 1 }]
    service := "com.apple.madrid"
    sub_services :=
      ["com.apple.private.alloy.sms", "com.apple.private.alloy.gelato",
       "com.apple.private.alloy.biz", "com.apple.private.alloy.gamecenter.imessage"]
    users :=
      [{ client_data := madridClientData ik,
         kt_loggable_data := none,
         uris := uris,
         user_id := user_id }] }

/-- The client-data map of the `com.apple.private.alloy.facetime.multi` catalog entry
(dictionary-literal order preserved). -/
def facetimeClientData : List (String × PValue) :=
  [("public-message-ngm-device-prekey-data-key", PValue.data facetimePrekeyBlob),
   ("supports-avless", PValue.bool true),
   ("public-message-identity-key", PValue.data facetimeIdentityKeyBlob),
   ("supports-gft-calls", PValue.bool true),
   ("public-message-identity-version", PValue.real 2),
   ("supports-co", PValue.bool true),
   ("supports-gft-errors", PValue.bool true),
   ("supports-self-one-to-one-invites", PValue.bool true),
   ("supports-modern-gft", PValue.bool true),
   ("public-message-identity-ngm-version", PValue.real 12),
   ("device-key-signature", PValue.data facetimeDeviceKeySignatureBlob)]

/-- The `com.apple.private.alloy.facetime.multi` entry of the static service catalog. -/
def facetimeService (uris : List Uri) (user_id : String) : ServiceEntry :=
  { capabilities := [{ flags := 1, name := "Invitation", version := 1 }]
    service := "com.apple.private.alloy.facetime.multi"
    sub_services :=
      []
    users :=
      [{ client_data := facetimeClientData,
         kt_loggable_data := some facetimeKtLoggableBlob,
         uris := uris,
         user_id := user_id }] }

/-- The client-data map of the `com.apple.ess` catalog entry
(dictionary-literal order preserved). -/
def essClientData (ik : List Nat) : List (String × PValue) :=
  [("public-message-identity-key", PValue.data ik),
   ("public-message-identity-version", PValue.int 2),
   ("supports-avless", PValue.bool true),
   ("supports-co", PValue.bool true),
   ("supports-gft-calls", PValue.bool true),
   ("supports-gft-errors", PValue.bool true),
   ("supports-modern-gft", PValue.bool true),
   ("supports-self-one-to-one-invites", PValue.bool true)]

/-- The `com.apple.ess` entry of the static service catalog. -/
def essService (ik : List Nat) (uris : List Uri) (user_id : String) : ServiceEntry :=
  { capabilities := [{ flags := 1, name := "Invitation", version := 21 }]
    service := "com.apple.ess"
    sub_services :=
      ["com.apple.private.alloy.facetime.video", "com.apple.private.alloy.facetime.sync",
       "com.apple.private.alloy.facetime.lp", "com.apple.private.alloy.facetime.mw"]
    users :=
      [{ client_data := essClientData ik,
         kt_loggable_data := none,
         uris := uris,
         user_id := user_id }] }

/-- The client-data map of the `com.apple.private.alloy.multiplex1` catalog entry
(dictionary-literal order preserved). -/
def multiplexClientData (ik : List Nat) : List (String × PValue) :=
  [("public-message-identity-key", PValue.data ik),
   ("public-message-identity-version", PValue.int 2),
   ("supports-beacon-sharing-v2", PValue.bool true),
   ("supports-beneficiary-invites", PValue.bool true),
   ("supports-cross-platform-sharing", PValue.bool true),
   ("supports-fmd-v2", PValue.bool true),
   ("supports-incoming-fmd-v1", PValue.bool true),
   ("supports-maps-routing-path-leg", PValue.bool true),
   ("supports-maps-waypoint-route-sharing", PValue.bool true),
   ("supports-screen-time-v2", PValue.bool true),
   ("supports-secure-loc-v1", PValue.bool true)]

/-- The `com.apple.private.alloy.multiplex1` entry of the static service catalog. -/
def multiplexService (ik : List Nat) (uris : List Uri) (user_id : String) : ServiceEntry :=
  { capabilities := [{ flags := 1, name := "com.apple.private.alloy", version := 1 }]
    service := "com.apple.private.alloy.multiplex1"
    sub_services :=
      ["com.apple.private.alloy.continuity.encryption", "com.apple.private.alloy.willow.stream",
       "com.apple.private.alloy.status.keysharing",
       "com.apple.private.alloy.ids.cloudmessaging",
       "com.apple.private.alloy.avconference.icloud",
       "com.apple.private.alloy.keytransparency.accountkey.pinning",
       "com.apple.private.alloy.gamecenter", "com.apple.private.alloy.thumper.keys",
       "com.apple.private.alloy.electrictouch", "com.apple.private.alloy.alarms-timers",
       "com.apple.private.alloy.continuity.activity", "com.apple.private.alloy.home.invite",
       "com.apple.private.alloy.safeview", "com.apple.private.alloy.screensharing.qr",
       "com.apple.private.alloy.phone.auth", "com.apple.private.alloy.home",
       "com.apple.private.alloy.groupkit.invite", "com.apple.private.alloy.fmf",
       "com.apple.private.alloy.continuity.tethering",
       "com.apple.private.alloy.status.personal", "com.apple.private.alloy.amp.potluck",
       "com.apple.private.alloy.screentime", "com.apple.private.alloy.copresence",
       "com.apple.private.alloy.screentime.invite", "com.apple.private.alloy.tips",
       "com.apple.private.alloy.siri.icloud", "com.apple.private.alloy.maps.eta",
       "com.apple.private.alloy.phonecontinuity", "com.apple.private.alloy.sleep.icloud",
       "com.apple.private.alloy.usagetracking", "com.apple.private.alloy.icloudpairing",
       "com.apple.private.alloy.clockface.sharing", "com.apple.private.alloy.carmelsync",
       "com.apple.private.alloy.messagenotification", "com.apple.private.alloy.digitalhealth",
       "com.apple.private.alloy.ded", "com.apple.private.alloy.screensharing",
       "com.apple.private.alloy.contextsync",
       "com.apple.private.alloy.accessibility.switchcontrol",
       "com.apple.private.alloy.familycontrols", "com.apple.private.alloy.fmd",
       "com.apple.private.alloy.willow", "com.apple.private.alloy.coreduet.sync",
       "com.apple.private.alloy.nearby", "com.apple.private.alloy.safari.groupactivities",
       "com.apple.private.alloy.groupkit", "com.apple.private.alloy.accounts.representative",
       "com.apple.private.alloy.notes", "com.apple.private.alloy.classroom",
       "com.apple.private.alloy.applepay", "com.apple.private.alloy.proxiedcrashcopier.icloud",
       "com.apple.private.alloy.continuity.unlock", "com.apple.private.alloy.nearby.family"]
    users :=
      [{ client_data := multiplexClientData ik,
         kt_loggable_data := none,
         uris := uris,
         user_id := user_id }] }

/-- The static service catalog of the request body (the `services` list,
lines 129-313), in source order, with the per-call values substituted:
`ik` is `identity.encode()`, `uris` the wrapped handle list and
`user_id` the caller token.  The facetime.multi entry does not receive
`ik`: its identity key is the hardcoded byte literal. -/
def register_services (ik : List Nat) (uris : List Uri) (user_id : String) :
    List ServiceEntry :=
  [madridService ik uris user_id,
   facetimeService uris user_id,
   essService ik uris user_id,
   multiplexService ik uris user_id]

/-- The pure construction of the registration request body (`register`,
lines 117-315).  `u` is the `uuid4().hex.upper()` value (external
randomness).  The three `identity.encode()` calls all return the same
value, bound once; `none` models an uncaught `OverflowError` from
`encode` or `binascii.Error` from `b64decode`, either of which aborts
`register` before a body exists. -/
def register_body (handles : List String) (user_id : String)
    (identity : IDSIdentity) (validation_data : List Nat) (u : String) :
    Option RegisterBody :=
  (identity.encode).bind fun ik =>
    (b64decode validation_data).bind fun vd =>
      some
        { device_name := "pypush"
          hardware_version := "MacBookPro18,3"
          language := "en-US"
          os_version := "macOS,13.2.1,22D68"
          software_version := "22D68"
          private_device_data := { u := u }
          services := register_services ik (handles.map (fun h => { uri := h })) user_id
          validation_data := vd }

/-- One element of a response service's `users` list; `cert` is `none`
when the `"cert"` key is absent (the blob itself is opaque). -/
structure RegUser where
  cert : Option Nat
deriving DecidableEq, Repr

/-- One element of the response's `services` list; `users` is `none`
when the `"users"` key is absent. -/
structure RegService where
  users : Option (List RegUser)
deriving DecidableEq, Repr

/-- The deserialized registration response, restricted to the keys the
code consumes: `status` (optional integer) and `services`. -/
structure RegResponse where
  status : Option Int
  services : Option (List RegService)
deriving DecidableEq, Repr

/-- Outcome of the response-validation and certificate-extraction code
(lines 334-354).  The typed failures are the raised `Exception`s, each
carrying the full raw response embedded in its message (except the
expiry one, whose message is fixed); `uncaught` is an untyped Python
`IndexError`/`KeyError` escaping from a subscript such as
`r["services"][0]` or `r["services"][3]["users"][0]["cert"]`. -/
inductive RegOutcome where
  | accepted (certs : List (String × ArmouredCert))
  | expired
  | rejected (raw : RegResponse)
  | missingServices (raw : RegResponse)
  | missingUsers (raw : RegResponse)
  | missingCert (raw : RegResponse)
  | uncaught
deriving DecidableEq, Repr

/-- `r["services"][i]["users"][0]["cert"]` as used in the result mapping
(lines 346-354): `none` when any subscript or key lookup would raise. -/
def service_user_cert (svcs : List RegService) (i : Nat) : Option Nat :=
  svcs[i]?.bind fun s =>
    s.users.bind fun us =>
      us[0]?.bind fun u => u.cert

/-- The return dictionary of `register` (lines 346-354): the four
catalog certificates are read positionally at response indices 0-3,
armoured, and bound to the four canonical service names in catalog
order; any failing subscript or key lookup on the way is an uncaught
IndexError/KeyError. -/
def register_extract (svcs : List RegService) : RegOutcome :=
  match service_user_cert svcs 0, service_user_cert svcs 1,
      service_user_cert svcs 2, service_user_cert svcs 3 with
  | some c0, some c1, some c2, some c3 =>
    RegOutcome.accepted
      [("com.apple.madrid", armour_cert c0),
       ("com.apple.private.alloy.facetime.multi", armour_cert c1),
       ("com.apple.ess", armour_cert c2),
       ("com.apple.private.alloy.multiplex1", armour_cert c3)]
  | _, _, _, _ => RegOutcome.uncaught

/-- The structural checks that follow the status checks (lines
339-344): missing `services` key, then `r["services"][0]` (IndexError
on an empty list → `uncaught`), missing `users` key on the first
service, `users[0]` (IndexError → `uncaught`), missing `cert` key on
the first user; only if all pass does the extraction of the return
dictionary run. -/
def register_checkFields (r : RegResponse) : RegOutcome :=
  match r.services with
  | none => RegOutcome.missingServices r
  | some svcs =>
    match svcs[0]? with
    | none => RegOutcome.uncaught
    | some s0 =>
      match s0.users with
      | none => RegOutcome.missingUsers r
      | some us =>
        match us[0]? with
        | none => RegOutcome.uncaught
        | some u0 =>
          match u0.cert with
          | none => RegOutcome.missingCert r
          | some _ => register_extract svcs

/-- The response-validation state machine (lines 334-354): the status
checks in source order — `status == 6004` (expired), then any other
non-zero status (rejected, carrying the raw response) — followed by the
structural checks and the positional certificate extraction. -/
def register_validate (r : RegResponse) : RegOutcome :=
  match r.status with
  | some s =>
    if s = 6004 then RegOutcome.expired
    else if s ≠ 0 then RegOutcome.rejected r
    else register_checkFields r
  | none => register_checkFields r

/-- The status checks pass: the response has no `status` key, or its
status is zero (lines 334-338 fall through). -/
def statusPasses (r : RegResponse) : Prop :=
  r.status = none ∨ r.status = some 0

/-- A response with four services, each with one user carrying a cert. -/
def sampleAcceptedServices : List RegService :=
  [{ users := some [{ cert := some 5 }] }, { users := some [{ cert := some 6 }] },
   { users := some [{ cert := some 7 }] }, { users := some [{ cert := some 8 }] }]

/-- The accepted registration response used as a witness. -/
def sampleAcceptedResponse : RegResponse :=
  { status := some 0, services := some sampleAcceptedServices }

/-- The ASCII bytes of the base64 string "AAAA" (which decodes to three
zero bytes). -/
def vdSample : List Nat := [65, 65, 65, 65]

/-- `services[i].users[0]["client-data"]["public-message-identity-key"]`
of a built request body. -/
def service_identity_key (body : RegisterBody) (i : Nat) : Option PValue :=
  body.services[i]?.bind fun svc =>
    svc.users[0]?.bind fun usr =>
      usr.client_data.lookup "public-message-identity-key"

/-! ## Theorems -/

theorem toBytesBEAux_length : ∀ k n : Nat, (toBytesBEAux k n).length = k
  | 0, _ => rfl
  | k + 1, n => by
    simp [toBytesBEAux, toBytesBEAux_length k]

theorem fromBytesBE_snoc (l : List Nat) (b : Nat) :
    fromBytesBE (l ++ [b]) = fromBytesBE l * 256 + b := by
  simp [fromBytesBE, List.foldl_append]

theorem fromBytesBE_toBytesBEAux :
    ∀ k n : Nat, n < 256 ^ k → fromBytesBE (toBytesBEAux k n) = n
  | 0, n, h => by
    simp [toBytesBEAux, fromBytesBE]
    omega
  | k + 1, n, h => by
    have hd : n / 256 < 256 ^ k := by
      rw [Nat.div_lt_iff_lt_mul (by norm_num : (0:Nat) < 256)]
      calc n < 256 ^ (k + 1) := h
        _ = 256 ^ k * 256 := by ring
    rw [toBytesBEAux, fromBytesBE_snoc, fromBytesBE_toBytesBEAux k _ hd]
    omega

theorem toBytesBE_some {k n : Nat} {l : List Nat} (h : toBytesBE k n = some l) :
    l.length = k ∧ fromBytesBE l = n ∧ n < 256 ^ k := by
  unfold toBytesBE at h
  split at h
  · cases h
    exact ⟨toBytesBEAux_length k n, fromBytesBE_toBytesBEAux k n (by assumption),
      by assumption⟩
  · cases h

theorem seg_take (a b : List Nat) (k : Nat) (h : a.length = k) :
    (a ++ b).take k = a := by
  subst h
  exact List.take_left a b

theorem seg_drop (a b : List Nat) (k : Nat) (h : a.length = k) :
    (a ++ b).drop k = b := by
  subst h
  exact List.drop_left a b

theorem take_of_length_eq (a : List Nat) (k : Nat) (h : a.length = k) :
    a.take k = a := by
  subst h
  exact List.take_length a

/-- Decoding a well-shaped concatenation of header bytes, 32-byte X and
Y fields and a 161-byte modulus field recovers the big-endian values of
the three numeric fields (and nothing else). -/
theorem decode_concat (xb yb nb : List Nat)
    (hx : xb.length = 32) (hy : yb.length = 32) (hn : nb.length = 161) :
    IDSIdentity.decode (derOuterHeader ++ ecPointTag ++ xb ++ yb ++ sepTag ++
        (rsaPrefixTag ++ rsaInnerTag ++ rsaLenTag ++ nb ++ rsaExpTrailer)) =
      some (IDSIdentity.ofPublicKeys
        { x := fromBytesBE xb, y := fromBytesBE yb, curve := ECCurve.secp256r1 }
        { n := fromBytesBE nb, e := 65537 }) := by
  have grpL : derOuterHeader ++ ecPointTag ++ xb ++ yb ++ sepTag ++
      (rsaPrefixTag ++ rsaInnerTag ++ rsaLenTag ++ nb ++ rsaExpTrailer) =
      derOuterHeader ++ (ecPointTag ++ (xb ++ (yb ++ (sepTag ++
        (rsaPrefixTag ++ (rsaInnerTag ++ (rsaLenTag ++ (nb ++ rsaExpTrailer)))))))) := by
    simp [List.append_assoc]
  rw [grpL]
  simp only [IDSIdentity.decode]
  rw [seg_take derOuterHeader _ 5 rfl, seg_drop derOuterHeader _ 5 rfl]
  have grp67 : ecPointTag ++ (xb ++ (yb ++ (sepTag ++
      (rsaPrefixTag ++ (rsaInnerTag ++ (rsaLenTag ++ (nb ++ rsaExpTrailer))))))) =
      (ecPointTag ++ (xb ++ yb)) ++ (sepTag ++
        (rsaPrefixTag ++ (rsaInnerTag ++ (rsaLenTag ++ (nb ++ rsaExpTrailer))))) := by
    simp [List.append_assoc]
  rw [grp67]
  have len67 : (ecPointTag ++ (xb ++ yb)).length = 67 := by
    simp [ecPointTag, hx, hy]
  rw [seg_take _ _ 67 len67, seg_drop _ _ 67 len67]
  rw [seg_take sepTag _ 3 rfl, seg_drop sepTag _ 3 rfl]
  have lenR : (rsaPrefixTag ++ (rsaInnerTag ++ (rsaLenTag ++ (nb ++ rsaExpTrailer)))).length
      = 174 := by
    simp [rsaPrefixTag, rsaInnerTag, rsaLenTag, rsaExpTrailer, hn]
  rw [take_of_length_eq _ 174 lenR]
  rw [seg_take rsaPrefixTag _ 2 rfl, seg_drop rsaPrefixTag _ 2 rfl]
  rw [seg_take rsaInnerTag _ 3 rfl]
  have grp5 : rsaPrefixTag ++ (rsaInnerTag ++ (rsaLenTag ++ (nb ++ rsaExpTrailer))) =
      (rsaPrefixTag ++ rsaInnerTag) ++ (rsaLenTag ++ (nb ++ rsaExpTrailer)) := by
    simp [List.append_assoc]
  rw [grp5, seg_drop (rsaPrefixTag ++ rsaInnerTag) _ 5 rfl]
  rw [seg_take rsaLenTag _ 3 rfl]
  have grp8 : (rsaPrefixTag ++ rsaInnerTag) ++ (rsaLenTag ++ (nb ++ rsaExpTrailer)) =
      (rsaPrefixTag ++ rsaInnerTag ++ rsaLenTag) ++ (nb ++ rsaExpTrailer) := by
    simp [List.append_assoc]
  rw [grp8, seg_drop (rsaPrefixTag ++ rsaInnerTag ++ rsaLenTag) _ 8 rfl]
  rw [seg_take nb rsaExpTrailer 161 hn]
  have grp169 : (rsaPrefixTag ++ rsaInnerTag ++ rsaLenTag) ++ (nb ++ rsaExpTrailer) =
      ((rsaPrefixTag ++ rsaInnerTag ++ rsaLenTag) ++ nb) ++ rsaExpTrailer := by
    simp [List.append_assoc]
  have len169 : ((rsaPrefixTag ++ rsaInnerTag ++ rsaLenTag) ++ nb).length = 169 := by
    simp [rsaPrefixTag, rsaInnerTag, rsaLenTag, hn]
  rw [grp169, seg_drop _ rsaExpTrailer 169 len169]
  rw [seg_take ecPointTag (xb ++ yb) 3 rfl, seg_drop ecPointTag (xb ++ yb) 3 rfl]
  rw [seg_take xb yb 32 hx, seg_drop xb yb 32 hx]
  simp [rsaExpTrailer]

/-- `IDSIdentity.decode` rewritten with every sequential read expressed
at its absolute offset in the input: the guard checks exactly the seven
declared tag regions (offsets 0, 72, 75, 77, 80, 244 and 5) and the
extracted numbers come from offsets 8, 40 and 83. -/
theorem decode_eq_offsets (inp : List Nat) :
    IDSIdentity.decode inp =
      if inp.take 5 = derOuterHeader ∧
          (inp.drop 72).take 3 = sepTag ∧
          (inp.drop 75).take 2 = rsaPrefixTag ∧
          (inp.drop 77).take 3 = rsaInnerTag ∧
          (inp.drop 80).take 3 = rsaLenTag ∧
          (inp.drop 244).take 5 = rsaExpTrailer ∧
          (inp.drop 5).take 3 = ecPointTag then
        some (IDSIdentity.ofPublicKeys
          { x := fromBytesBE ((inp.drop 8).take 32),
            y := fromBytesBE ((inp.drop 40).take 32),
            curve := ECCurve.secp256r1 }
          { n := fromBytesBE ((inp.drop 83).take 161), e := 65537 })
      else none := by
  simp only [IDSIdentity.decode, List.drop_drop, List.drop_take, List.take_take]
  norm_num

/-- C1: for every Identity whose signing public key is an EC-P256 point
and whose encryption public key is an RSA key with exponent 65537 and
modulus fitting in 161 bytes, `decode(encode(identity))` succeeds and
yields an Identity with identical signing and encryption public-key
material and no private key material (even when the input had private
keys: the result is built by the public-only constructor). -/
theorem decode_encode_roundtrip (self : IDSIdentity)
    (hcurve : self.signing_public_key.curve = ECCurve.secp256r1)
    (hexp : self.encryption_public_key.e = 65537)
    (hx : self.signing_public_key.x < 256 ^ 32)
    (hy : self.signing_public_key.y < 256 ^ 32)
    (hn : self.encryption_public_key.n < 256 ^ 161) :
    ∃ bs, self.encode = some bs ∧
      IDSIdentity.decode bs =
        some (IDSIdentity.ofPublicKeys self.signing_public_key
          self.encryption_public_key) := by
  have hN : toBytesBE 161 self.encryption_public_key.n
      = some (toBytesBEAux 161 self.encryption_public_key.n) := by
    unfold toBytesBE
    rw [if_pos hn]
  have hX : toBytesBE 32 self.signing_public_key.x
      = some (toBytesBEAux 32 self.signing_public_key.x) := by
    unfold toBytesBE
    rw [if_pos hx]
  have hY : toBytesBE 32 self.signing_public_key.y
      = some (toBytesBEAux 32 self.signing_public_key.y) := by
    unfold toBytesBE
    rw [if_pos hy]
  refine ⟨derOuterHeader ++ ecPointTag ++ toBytesBEAux 32 self.signing_public_key.x ++
    toBytesBEAux 32 self.signing_public_key.y ++ sepTag ++
    (rsaPrefixTag ++ rsaInnerTag ++ rsaLenTag ++
      toBytesBEAux 161 self.encryption_public_key.n ++ rsaExpTrailer), ?_, ?_⟩
  · unfold IDSIdentity.encode
    rw [hN, hX, hY]
    rfl
  · rw [decode_concat _ _ _ (toBytesBEAux_length _ _) (toBytesBEAux_length _ _)
      (toBytesBEAux_length _ _)]
    rw [fromBytesBE_toBytesBEAux _ _ hx, fromBytesBE_toBytesBEAux _ _ hy,
      fromBytesBE_toBytesBEAux _ _ hn]
    rw [← hcurve, ← hexp]

/-- Witness for C1: the concrete `sampleIdentity` (which holds private
key material) satisfies the hypotheses, and its round trip returns the
public-only identity with the same public numbers. -/
theorem decode_encode_roundtrip_witness :
    sampleIdentity.signing_public_key.curve = ECCurve.secp256r1 ∧
    sampleIdentity.encryption_public_key.e = 65537 ∧
    sampleIdentity.signing_public_key.x < 256 ^ 32 ∧
    sampleIdentity.signing_public_key.y < 256 ^ 32 ∧
    sampleIdentity.encryption_public_key.n < 256 ^ 161 ∧
    ∃ bs, sampleIdentity.encode = some bs ∧
      IDSIdentity.decode bs =
        some (IDSIdentity.ofPublicKeys sampleIdentity.signing_public_key
          sampleIdentity.encryption_public_key) :=
  ⟨rfl, rfl, by decide, by decide, by decide,
    decode_encode_roundtrip sampleIdentity rfl rfl (by decide) (by decide)
      (by decide)⟩

/-- C2 counterexample: the claim says `encode` fails whenever the RSA
public exponent is not 65537, but the code never inspects the exponent
(it hardcodes the 65537 trailer, line 94 of `identity.py`): an identity
with exponent 3 still encodes to a container. -/
theorem encode_ignores_exponent :
    badExponentIdentity.encryption_public_key.e ≠ 65537 ∧
    (IDSIdentity.encode badExponentIdentity).isSome = true := by
  refine ⟨by decide, ?_⟩
  rfl

/-- C2 (amended): `encode` fails exactly when a numeric field overflows
its fixed width — the modulus does not fit in 161 bytes, or an EC
coordinate does not fit in 32 bytes.  Neither the RSA exponent nor the
EC curve is checked: the 65537 trailer is hardcoded, so an identity with
a different exponent still yields a container. -/
theorem encode_none_iff (self : IDSIdentity) :
    self.encode = none ↔
      ¬self.encryption_public_key.n < 256 ^ 161 ∨
      ¬self.signing_public_key.x < 256 ^ 32 ∨
      ¬self.signing_public_key.y < 256 ^ 32 := by
  by_cases hn : self.encryption_public_key.n < 256 ^ 161 <;>
    by_cases hx : self.signing_public_key.x < 256 ^ 32 <;>
      by_cases hy : self.signing_public_key.y < 256 ^ 32 <;>
        simp only [IDSIdentity.encode, toBytesBE, hn, hx, hy] <;>
          simp

/-- C3: for every input byte string, a mismatch in any of the seven
declared tag regions (the 5-byte outer header at offset 0, the 3-byte
EC point-format tag at offset 5, the 3-byte separator at offset 72, the
2-byte RSA prefix at offset 75, the 3-byte inner tag at offset 77, the
3-byte length tag at offset 80, or the 5-byte exponent trailer at
offset 244, which must be the encoding of 65537) makes `decode` fail
with `MalformedIdentity` (modelled as `none`: no partial Identity is
returned).  In particular flipping any single byte inside a tag region
of a valid container changes that region away from its required
constant, so the flipped container is rejected. -/
theorem decode_rejects_tag_mismatch (inp : List Nat)
    (h : inp.take 5 ≠ derOuterHeader ∨
         (inp.drop 5).take 3 ≠ ecPointTag ∨
         (inp.drop 72).take 3 ≠ sepTag ∨
         (inp.drop 75).take 2 ≠ rsaPrefixTag ∨
         (inp.drop 77).take 3 ≠ rsaInnerTag ∨
         (inp.drop 80).take 3 ≠ rsaLenTag ∨
         (inp.drop 244).take 5 ≠ rsaExpTrailer) :
    IDSIdentity.decode inp = none := by
  rw [decode_eq_offsets, if_neg]
  tauto

/-- Witness for C3: the empty input has a wrong outer header region, and
decode rejects it. -/
theorem decode_rejects_tag_mismatch_witness :
    (([] : List Nat).take 5 ≠ derOuterHeader ∨
     (([] : List Nat).drop 5).take 3 ≠ ecPointTag ∨
     (([] : List Nat).drop 72).take 3 ≠ sepTag ∨
     (([] : List Nat).drop 75).take 2 ≠ rsaPrefixTag ∨
     (([] : List Nat).drop 77).take 3 ≠ rsaInnerTag ∨
     (([] : List Nat).drop 80).take 3 ≠ rsaLenTag ∨
     (([] : List Nat).drop 244).take 5 ≠ rsaExpTrailer) ∧
    IDSIdentity.decode [] = none :=
  ⟨Or.inl (by decide), decode_rejects_tag_mismatch [] (Or.inl (by decide))⟩

/-- C4: every byte string accepted by `decode` yields an Identity whose
signing key is the P-256 point read as two 32-byte big-endian integers
at offsets 8 and 40, whose encryption key is the RSA key with the
161-byte big-endian modulus at offset 83 and exponent exactly 65537,
and which carries no private key material. -/
theorem decode_output_fields (inp : List Nat) (ident : IDSIdentity)
    (h : IDSIdentity.decode inp = some ident) :
    ident.signing_public_key =
      { x := fromBytesBE ((inp.drop 8).take 32),
        y := fromBytesBE ((inp.drop 40).take 32),
        curve := ECCurve.secp256r1 } ∧
    ident.encryption_public_key =
      { n := fromBytesBE ((inp.drop 83).take 161), e := 65537 } ∧
    ident.signing_key = none ∧
    ident.encryption_key = none := by
  rw [decode_eq_offsets] at h
  split_ifs at h with hc
  cases h
  exact ⟨rfl, rfl, rfl, rfl⟩

set_option maxRecDepth 16384 in
/-- Witness for C4 at the concrete accepted container. -/
theorem decode_output_fields_witness :
    IDSIdentity.decode sampleContainer =
      some (IDSIdentity.ofPublicKeys
        { x := 1, y := 2, curve := ECCurve.secp256r1 } { n := 17, e := 65537 }) ∧
    ((IDSIdentity.ofPublicKeys
        { x := 1, y := 2, curve := ECCurve.secp256r1 }
        { n := 17, e := 65537 }).signing_public_key =
      { x := fromBytesBE ((sampleContainer.drop 8).take 32),
        y := fromBytesBE ((sampleContainer.drop 40).take 32),
        curve := ECCurve.secp256r1 } ∧
     (IDSIdentity.ofPublicKeys
        { x := 1, y := 2, curve := ECCurve.secp256r1 }
        { n := 17, e := 65537 }).encryption_public_key =
      { n := fromBytesBE ((sampleContainer.drop 83).take 161), e := 65537 } ∧
     (IDSIdentity.ofPublicKeys
        { x := 1, y := 2, curve := ECCurve.secp256r1 }
        { n := 17, e := 65537 }).signing_key = none ∧
     (IDSIdentity.ofPublicKeys
        { x := 1, y := 2, curve := ECCurve.secp256r1 }
        { n := 17, e := 65537 }).encryption_key = none) :=
  ⟨by decide, decode_output_fields sampleContainer _ (by decide)⟩

/-- Layout of a well-shaped concatenation: every field of the container
sits at its documented offset.  Stated over arbitrary 32/32/161-byte
numeric fields; `IDSIdentity.encode` produces exactly this shape. -/
theorem concat_layout (xb yb nb L : List Nat)
    (hx : xb.length = 32) (hy : yb.length = 32) (hn : nb.length = 161)
    (hL : L = derOuterHeader ++ ecPointTag ++ xb ++ yb ++ sepTag ++
      (rsaPrefixTag ++ rsaInnerTag ++ rsaLenTag ++ nb ++ rsaExpTrailer)) :
    L.length = 249 ∧
    L.take 5 = derOuterHeader ∧
    (L.drop 5).take 3 = ecPointTag ∧
    (L.drop 8).take 32 = xb ∧
    (L.drop 40).take 32 = yb ∧
    (L.drop 72).take 3 = sepTag ∧
    (L.drop 75).take 2 = rsaPrefixTag ∧
    (L.drop 77).take 3 = rsaInnerTag ∧
    (L.drop 80).take 3 = rsaLenTag ∧
    (L.drop 83).take 161 = nb ∧
    L.drop 244 = rsaExpTrailer := by
  subst hL
  have grpL : derOuterHeader ++ ecPointTag ++ xb ++ yb ++ sepTag ++
      (rsaPrefixTag ++ rsaInnerTag ++ rsaLenTag ++ nb ++ rsaExpTrailer) =
      derOuterHeader ++ (ecPointTag ++ (xb ++ (yb ++ (sepTag ++
        (rsaPrefixTag ++ (rsaInnerTag ++ (rsaLenTag ++ (nb ++ rsaExpTrailer)))))))) := by
    simp [List.append_assoc]
  rw [grpL]
  refine ⟨?_, ?_, ?_, ?_, ?_, ?_, ?_, ?_, ?_, ?_, ?_⟩
  · simp [derOuterHeader, ecPointTag, sepTag, rsaPrefixTag, rsaInnerTag, rsaLenTag,
      rsaExpTrailer, hx, hy, hn]
  · exact seg_take derOuterHeader _ 5 rfl
  · rw [seg_drop derOuterHeader _ 5 rfl]
    exact seg_take ecPointTag _ 3 rfl
  · have grp : derOuterHeader ++ (ecPointTag ++ (xb ++ (yb ++ (sepTag ++
        (rsaPrefixTag ++ (rsaInnerTag ++ (rsaLenTag ++ (nb ++ rsaExpTrailer)))))))) =
        (derOuterHeader ++ ecPointTag) ++ (xb ++ (yb ++ (sepTag ++
          (rsaPrefixTag ++ (rsaInnerTag ++ (rsaLenTag ++ (nb ++ rsaExpTrailer))))))) := by
      simp [List.append_assoc]
    rw [grp, seg_drop (derOuterHeader ++ ecPointTag) _ 8 rfl]
    exact seg_take xb _ 32 hx
  · have grp : derOuterHeader ++ (ecPointTag ++ (xb ++ (yb ++ (sepTag ++
        (rsaPrefixTag ++ (rsaInnerTag ++ (rsaLenTag ++ (nb ++ rsaExpTrailer)))))))) =
        ((derOuterHeader ++ ecPointTag) ++ xb) ++ (yb ++ (sepTag ++
          (rsaPrefixTag ++ (rsaInnerTag ++ (rsaLenTag ++ (nb ++ rsaExpTrailer)))))) := by
      simp [List.append_assoc]
    rw [grp, seg_drop ((derOuterHeader ++ ecPointTag) ++ xb) _ 40 (by simp [derOuterHeader, ecPointTag, hx])]
    exact seg_take yb _ 32 hy
  · have grp : derOuterHeader ++ (ecPointTag ++ (xb ++ (yb ++ (sepTag ++
        (rsaPrefixTag ++ (rsaInnerTag ++ (rsaLenTag ++ (nb ++ rsaExpTrailer)))))))) =
        (((derOuterHeader ++ ecPointTag) ++ xb) ++ yb) ++ (sepTag ++
          (rsaPrefixTag ++ (rsaInnerTag ++ (rsaLenTag ++ (nb ++ rsaExpTrailer))))) := by
      simp [List.append_assoc]
    rw [grp, seg_drop (((derOuterHeader ++ ecPointTag) ++ xb) ++ yb) _ 72 (by simp [derOuterHeader, ecPointTag, hx, hy])]
    exact seg_take sepTag _ 3 rfl
  · have grp : derOuterHeader ++ (ecPointTag ++ (xb ++ (yb ++ (sepTag ++
        (rsaPrefixTag ++ (rsaInnerTag ++ (rsaLenTag ++ (nb ++ rsaExpTrailer)))))))) =
        ((((derOuterHeader ++ ecPointTag) ++ xb) ++ yb) ++ sepTag) ++
          (rsaPrefixTag ++ (rsaInnerTag ++ (rsaLenTag ++ (nb ++ rsaExpTrailer)))) := by
      simp [List.append_assoc]
    rw [grp, seg_drop ((((derOuterHeader ++ ecPointTag) ++ xb) ++ yb) ++ sepTag) _ 75 (by simp [derOuterHeader, ecPointTag, sepTag, hx, hy])]
    exact seg_take rsaPrefixTag _ 2 rfl
  · have grp : derOuterHeader ++ (ecPointTag ++ (xb ++ (yb ++ (sepTag ++
        (rsaPrefixTag ++ (rsaInnerTag ++ (rsaLenTag ++ (nb ++ rsaExpTrailer)))))))) =
        (((((derOuterHeader ++ ecPointTag) ++ xb) ++ yb) ++ sepTag) ++ rsaPrefixTag) ++
          (rsaInnerTag ++ (rsaLenTag ++ (nb ++ rsaExpTrailer))) := by
      simp [List.append_assoc]
    rw [grp, seg_drop (((((derOuterHeader ++ ecPointTag) ++ xb) ++ yb) ++ sepTag) ++
      rsaPrefixTag) _ 77
      (by simp [derOuterHeader, ecPointTag, sepTag, rsaPrefixTag, hx, hy])]
    exact seg_take rsaInnerTag _ 3 rfl
  · have grp : derOuterHeader ++ (ecPointTag ++ (xb ++ (yb ++ (sepTag ++
        (rsaPrefixTag ++ (rsaInnerTag ++ (rsaLenTag ++ (nb ++ rsaExpTrailer)))))))) =
        ((((((derOuterHeader ++ ecPointTag) ++ xb) ++ yb) ++ sepTag) ++ rsaPrefixTag) ++
          rsaInnerTag) ++ (rsaLenTag ++ (nb ++ rsaExpTrailer)) := by
      simp [List.append_assoc]
    rw [grp, seg_drop ((((((derOuterHeader ++ ecPointTag) ++ xb) ++ yb) ++ sepTag) ++
      rsaPrefixTag) ++ rsaInnerTag) _ 80
      (by simp [derOuterHeader, ecPointTag, sepTag, rsaPrefixTag, rsaInnerTag, hx, hy])]
    exact seg_take rsaLenTag _ 3 rfl
  · have grp : derOuterHeader ++ (ecPointTag ++ (xb ++ (yb ++ (sepTag ++
        (rsaPrefixTag ++ (rsaInnerTag ++ (rsaLenTag ++ (nb ++ rsaExpTrailer)))))))) =
        (((((((derOuterHeader ++ ecPointTag) ++ xb) ++ yb) ++ sepTag) ++ rsaPrefixTag) ++
          rsaInnerTag) ++ rsaLenTag) ++ (nb ++ rsaExpTrailer) := by
      simp [List.append_assoc]
    rw [grp, seg_drop (((((((derOuterHeader ++ ecPointTag) ++ xb) ++ yb) ++ sepTag) ++
      rsaPrefixTag) ++ rsaInnerTag) ++ rsaLenTag) _ 83 (by simp [derOuterHeader,
      ecPointTag, sepTag, rsaPrefixTag, rsaInnerTag, rsaLenTag, hx, hy])]
    exact seg_take nb _ 161 hn
  · have grp : derOuterHeader ++ (ecPointTag ++ (xb ++ (yb ++ (sepTag ++
        (rsaPrefixTag ++ (rsaInnerTag ++ (rsaLenTag ++ (nb ++ rsaExpTrailer)))))))) =
        ((((((((derOuterHeader ++ ecPointTag) ++ xb) ++ yb) ++ sepTag) ++ rsaPrefixTag) ++
          rsaInnerTag) ++ rsaLenTag) ++ nb) ++ rsaExpTrailer := by
      simp [List.append_assoc]
    rw [grp, seg_drop ((((((((derOuterHeader ++ ecPointTag) ++ xb) ++ yb) ++ sepTag) ++
      rsaPrefixTag) ++ rsaInnerTag) ++ rsaLenTag) ++ nb) _ 244 (by simp [derOuterHeader,
      ecPointTag, sepTag, rsaPrefixTag, rsaInnerTag, rsaLenTag, hx, hy, hn])]

/-- C5: for every Identity satisfying the shape constraints, `encode`
produces exactly the 249-byte container with the constant tags at
offsets 0, 5, 72, 75, 77 and 80, the EC X and Y coordinates as 32-byte
big-endian zero-padded integers at offsets 8 and 40, the modulus
zero-padded to 161 bytes at offset 83, and the constant 5-byte exponent
trailer (the encoding of 65537) at offset 244. -/
theorem encode_layout (self : IDSIdentity)
    (_hcurve : self.signing_public_key.curve = ECCurve.secp256r1)
    (_hexp : self.encryption_public_key.e = 65537)
    (hx : self.signing_public_key.x < 256 ^ 32)
    (hy : self.signing_public_key.y < 256 ^ 32)
    (hn : self.encryption_public_key.n < 256 ^ 161) :
    ∃ bs, self.encode = some bs ∧
      bs.length = 249 ∧
      bs.take 5 = derOuterHeader ∧
      (bs.drop 5).take 3 = ecPointTag ∧
      (bs.drop 8).take 32 = toBytesBEAux 32 self.signing_public_key.x ∧
      (bs.drop 40).take 32 = toBytesBEAux 32 self.signing_public_key.y ∧
      (bs.drop 72).take 3 = sepTag ∧
      (bs.drop 75).take 2 = rsaPrefixTag ∧
      (bs.drop 77).take 3 = rsaInnerTag ∧
      (bs.drop 80).take 3 = rsaLenTag ∧
      (bs.drop 83).take 161 = toBytesBEAux 161 self.encryption_public_key.n ∧
      bs.drop 244 = rsaExpTrailer := by
  have hN : toBytesBE 161 self.encryption_public_key.n
      = some (toBytesBEAux 161 self.encryption_public_key.n) := by
    unfold toBytesBE
    rw [if_pos hn]
  have hX : toBytesBE 32 self.signing_public_key.x
      = some (toBytesBEAux 32 self.signing_public_key.x) := by
    unfold toBytesBE
    rw [if_pos hx]
  have hY : toBytesBE 32 self.signing_public_key.y
      = some (toBytesBEAux 32 self.signing_public_key.y) := by
    unfold toBytesBE
    rw [if_pos hy]
  refine ⟨derOuterHeader ++ ecPointTag ++ toBytesBEAux 32 self.signing_public_key.x ++
    toBytesBEAux 32 self.signing_public_key.y ++ sepTag ++
    (rsaPrefixTag ++ rsaInnerTag ++ rsaLenTag ++
      toBytesBEAux 161 self.encryption_public_key.n ++ rsaExpTrailer), ?_, ?_⟩
  · unfold IDSIdentity.encode
    rw [hN, hX, hY]
    rfl
  · exact concat_layout _ _ _ _ (toBytesBEAux_length _ _) (toBytesBEAux_length _ _)
      (toBytesBEAux_length _ _) rfl

/-- Witness for C5 at the concrete `sampleIdentity`. -/
theorem encode_layout_witness :
    sampleIdentity.signing_public_key.curve = ECCurve.secp256r1 ∧
    sampleIdentity.encryption_public_key.e = 65537 ∧
    sampleIdentity.signing_public_key.x < 256 ^ 32 ∧
    sampleIdentity.signing_public_key.y < 256 ^ 32 ∧
    sampleIdentity.encryption_public_key.n < 256 ^ 161 ∧
    ∃ bs, sampleIdentity.encode = some bs ∧
      bs.length = 249 ∧
      bs.take 5 = derOuterHeader ∧
      (bs.drop 5).take 3 = ecPointTag ∧
      (bs.drop 8).take 32 = toBytesBEAux 32 sampleIdentity.signing_public_key.x ∧
      (bs.drop 40).take 32 = toBytesBEAux 32 sampleIdentity.signing_public_key.y ∧
      (bs.drop 72).take 3 = sepTag ∧
      (bs.drop 75).take 2 = rsaPrefixTag ∧
      (bs.drop 77).take 3 = rsaInnerTag ∧
      (bs.drop 80).take 3 = rsaLenTag ∧
      (bs.drop 83).take 161 = toBytesBEAux 161 sampleIdentity.encryption_public_key.n ∧
      bs.drop 244 = rsaExpTrailer :=
  ⟨rfl, rfl, by decide, by decide, by decide,
    encode_layout sampleIdentity rfl rfl (by decide) (by decide) (by decide)⟩

theorem register_extract_cases (svcs : List RegService) :
    register_extract svcs = RegOutcome.uncaught ∨
    ∃ c0 c1 c2 c3,
      service_user_cert svcs 0 = some c0 ∧
      service_user_cert svcs 1 = some c1 ∧
      service_user_cert svcs 2 = some c2 ∧
      service_user_cert svcs 3 = some c3 ∧
      register_extract svcs = RegOutcome.accepted
        [("com.apple.madrid", armour_cert c0),
         ("com.apple.private.alloy.facetime.multi", armour_cert c1),
         ("com.apple.ess", armour_cert c2),
         ("com.apple.private.alloy.multiplex1", armour_cert c3)] := by
  rcases h0 : service_user_cert svcs 0 with _ | c0 <;>
    rcases h1 : service_user_cert svcs 1 with _ | c1 <;>
      rcases h2 : service_user_cert svcs 2 with _ | c2 <;>
        rcases h3 : service_user_cert svcs 3 with _ | c3 <;>
          simp [register_extract, h0, h1, h2, h3]

theorem checkFields_spec (r : RegResponse) :
    (register_checkFields r = RegOutcome.missingServices r ↔ r.services = none) ∧
    (register_checkFields r = RegOutcome.missingUsers r ↔
      ∃ svcs s0, r.services = some svcs ∧ svcs[0]? = some s0 ∧
        s0.users = none) ∧
    (register_checkFields r = RegOutcome.missingCert r ↔
      ∃ svcs s0 us u0, r.services = some svcs ∧ svcs[0]? = some s0 ∧
        s0.users = some us ∧ us[0]? = some u0 ∧ u0.cert = none) ∧
    register_checkFields r ≠ RegOutcome.expired ∧
    (∀ raw, register_checkFields r ≠ RegOutcome.rejected raw) := by
  rcases hs : r.services with _ | svcs
  · simp [register_checkFields, hs]
  · rcases hg : svcs[0]? with _ | s0
    · simp [register_checkFields, hs, hg]
    · rcases hu : s0.users with _ | us
      · simp [register_checkFields, hs, hg, hu]
      · rcases hu0 : us[0]? with _ | u0
        · simp [register_checkFields, hs, hg, hu, hu0]
        · rcases hc : u0.cert with _ | c
          · simp [register_checkFields, hs, hg, hu, hu0, hc]
          · rcases register_extract_cases svcs with hx |
              ⟨c0, c1, c2, c3, _, _, _, _, hx⟩ <;>
                simp [register_checkFields, hs, hg, hu, hu0, hc, hx]

theorem validate_statusPasses (r : RegResponse) (h : statusPasses r) :
    register_validate r = register_checkFields r := by
  rcases h with h | h <;> simp [register_validate, h]

/-- C6: the response-validation step evaluates its checks strictly in
source order and yields the corresponding typed failure: a present
status equal to 6004 gives the expiry failure; otherwise a present
non-zero status gives the rejection failure carrying the full raw
response; otherwise a missing `services` key gives the missing-services
failure; otherwise a missing `users` key on the first service gives the
missing-users failure; otherwise a missing `cert` key on the first user
gives the missing-cert failure; each equivalence holds exactly under
the conjunction of its own condition with the negation of all earlier
ones. -/
theorem validation_order (r : RegResponse) :
    (register_validate r = RegOutcome.expired ↔ r.status = some 6004) ∧
    (register_validate r = RegOutcome.rejected r ↔
      ∃ s, r.status = some s ∧ s ≠ 6004 ∧ s ≠ 0) ∧
    (register_validate r = RegOutcome.missingServices r ↔
      statusPasses r ∧ r.services = none) ∧
    (register_validate r = RegOutcome.missingUsers r ↔
      statusPasses r ∧ ∃ svcs s0, r.services = some svcs ∧
        svcs[0]? = some s0 ∧ s0.users = none) ∧
    (register_validate r = RegOutcome.missingCert r ↔
      statusPasses r ∧ ∃ svcs s0 us u0, r.services = some svcs ∧
        svcs[0]? = some s0 ∧ s0.users = some us ∧ us[0]? = some u0 ∧
        u0.cert = none) := by
  obtain ⟨spec1, spec2, spec3, spec4, spec5⟩ := checkFields_spec r
  rcases hst : r.status with _ | s
  · have hv : register_validate r = register_checkFields r :=
      validate_statusPasses r (Or.inl hst)
    refine ⟨?_, ?_, ?_, ?_, ?_⟩ <;>
      simp [hv, hst, statusPasses, spec1, spec2, spec3, spec4, spec5]
  · by_cases h6 : s = 6004
    · subst h6
      have hv : register_validate r = RegOutcome.expired := by
        simp [register_validate, hst]
      refine ⟨?_, ?_, ?_, ?_, ?_⟩ <;> simp [hv, hst, statusPasses]
    · by_cases h0 : s = 0
      · subst h0
        have hv : register_validate r = register_checkFields r :=
          validate_statusPasses r (Or.inr hst)
        refine ⟨?_, ?_, ?_, ?_, ?_⟩ <;>
          simp [hv, hst, statusPasses, spec1, spec2, spec3, spec4, spec5]
      · have hv : register_validate r = RegOutcome.rejected r := by
          simp [register_validate, hst, h6, h0]
        refine ⟨?_, ?_, ?_, ?_, ?_⟩ <;>
          simp [hv, hst, statusPasses, h6, h0]

/-- Witness for C6 (each branch of the characterization exercised at a
concrete response). -/
theorem validation_order_witness :
    register_validate { status := some 6004, services := none } =
      RegOutcome.expired ∧
    register_validate { status := some 1, services := none } =
      RegOutcome.rejected { status := some 1, services := none } ∧
    register_validate { status := some 0, services := none } =
      RegOutcome.missingServices { status := some 0, services := none } ∧
    register_validate { status := none, services := some [{ users := none }] } =
      RegOutcome.missingUsers { status := none, services := some [{ users := none }] } ∧
    register_validate
        { status := some 0, services := some [{ users := some [{ cert := none }] }] } =
      RegOutcome.missingCert
        { status := some 0, services := some [{ users := some [{ cert := none }] }] } :=
  ⟨(validation_order _).1.mpr rfl,
   (validation_order _).2.1.mpr ⟨1, rfl, by decide, by decide⟩,
   (validation_order _).2.2.1.mpr ⟨Or.inr rfl, rfl⟩,
   (validation_order _).2.2.2.1.mpr ⟨Or.inl rfl, [{ users := none }], { users := none },
     rfl, rfl, rfl⟩,
   (validation_order _).2.2.2.2.mpr ⟨Or.inr rfl, [{ users := some [{ cert := none }] }],
     { users := some [{ cert := none }] }, [{ cert := none }], { cert := none },
     rfl, rfl, rfl, rfl, rfl⟩⟩

/-- C7: whenever validation accepts, the result is exactly one entry
per service of the static catalog, in catalog order, binding the i-th
catalog service name to the armoured certificate found positionally at
`response.services[i].users[0].cert` — a positional, not name-matched,
binding. -/
theorem accepted_mapping (r : RegResponse) (svcs : List RegService)
    (certs : List (String × ArmouredCert))
    (hs : r.services = some svcs)
    (h : register_validate r = RegOutcome.accepted certs) :
    ∃ c0 c1 c2 c3,
      service_user_cert svcs 0 = some c0 ∧
      service_user_cert svcs 1 = some c1 ∧
      service_user_cert svcs 2 = some c2 ∧
      service_user_cert svcs 3 = some c3 ∧
      certs = [("com.apple.madrid", armour_cert c0),
               ("com.apple.private.alloy.facetime.multi", armour_cert c1),
               ("com.apple.ess", armour_cert c2),
               ("com.apple.private.alloy.multiplex1", armour_cert c3)] ∧
      ∀ ik uris uid, certs.map Prod.fst =
        (register_services ik uris uid).map ServiceEntry.service := by
  have hcf : register_checkFields r = RegOutcome.accepted certs := by
    rcases hst : r.status with _ | s
    · rw [← validate_statusPasses r (Or.inl hst)]
      exact h
    · by_cases h0 : s = 0
      · subst h0
        rw [← validate_statusPasses r (Or.inr hst)]
        exact h
      · by_cases h6 : s = 6004 <;> simp [register_validate, hst, h0, h6] at h
  simp only [register_checkFields, hs] at hcf
  rcases hg : svcs[0]? with _ | s0 <;> simp [hg] at hcf
  rcases hu : s0.users with _ | us <;> simp [hu] at hcf
  rcases hu0 : us[0]? with _ | u0 <;> simp [hu0] at hcf
  rcases hc : u0.cert with _ | c <;> simp [hc] at hcf
  rcases register_extract_cases svcs with hx | ⟨c0, c1, c2, c3, hc0, hc1, hc2, hc3, hx⟩
  · rw [hx] at hcf
    cases hcf
  · rw [hx] at hcf
    injection hcf with hcerts
    refine ⟨c0, c1, c2, c3, hc0, hc1, hc2, hc3, hcerts.symm, ?_⟩
    intro ik uris uid
    rw [hcerts.symm]
    rfl

/-- Witness for C7 at a concrete accepted response. -/
theorem accepted_mapping_witness :
    sampleAcceptedResponse.services = some sampleAcceptedServices ∧
    register_validate sampleAcceptedResponse =
      RegOutcome.accepted
        [("com.apple.madrid", armour_cert 5),
         ("com.apple.private.alloy.facetime.multi", armour_cert 6),
         ("com.apple.ess", armour_cert 7),
         ("com.apple.private.alloy.multiplex1", armour_cert 8)] ∧
    ∃ c0 c1 c2 c3,
      service_user_cert sampleAcceptedServices 0 = some c0 ∧
      service_user_cert sampleAcceptedServices 1 = some c1 ∧
      service_user_cert sampleAcceptedServices 2 = some c2 ∧
      service_user_cert sampleAcceptedServices 3 = some c3 ∧
      [("com.apple.madrid", armour_cert 5),
       ("com.apple.private.alloy.facetime.multi", armour_cert 6),
       ("com.apple.ess", armour_cert 7),
       ("com.apple.private.alloy.multiplex1", armour_cert 8)] =
        [("com.apple.madrid", armour_cert c0),
         ("com.apple.private.alloy.facetime.multi", armour_cert c1),
         ("com.apple.ess", armour_cert c2),
         ("com.apple.private.alloy.multiplex1", armour_cert c3)] ∧
      ∀ ik uris uid,
        ([("com.apple.madrid", armour_cert 5),
          ("com.apple.private.alloy.facetime.multi", armour_cert 6),
          ("com.apple.ess", armour_cert 7),
          ("com.apple.private.alloy.multiplex1", armour_cert 8)] :
            List (String × ArmouredCert)).map Prod.fst =
          (register_services ik uris uid).map ServiceEntry.service :=
  ⟨rfl, by decide,
    accepted_mapping sampleAcceptedResponse sampleAcceptedServices _ rfl (by decide)⟩

/-- C10: structural validation inspects only the first service and its
first user: a response whose status check passes and whose first
service has a first user with a `cert`, but which has fewer than four
services or lacks `users`/a first user/`cert` at index 1, 2 or 3, makes
the certificate-extraction step fail with the untyped indexing/lookup
error (`uncaught`), not with any of the typed failures. -/
theorem extraction_uncaught_beyond_first (r : RegResponse)
    (svcs : List RegService) (c0 : Nat)
    (hs : r.services = some svcs)
    (hst : statusPasses r)
    (h0 : service_user_cert svcs 0 = some c0)
    (hmiss : svcs.length < 4 ∨ service_user_cert svcs 1 = none ∨
      service_user_cert svcs 2 = none ∨ service_user_cert svcs 3 = none) :
    register_validate r = RegOutcome.uncaught := by
  have hmiss' : service_user_cert svcs 1 = none ∨
      service_user_cert svcs 2 = none ∨ service_user_cert svcs 3 = none := by
    rcases hmiss with hlen | h | h | h
    · refine Or.inr (Or.inr ?_)
      have : svcs[3]? = none := by
        rw [List.getElem?_eq_none_iff]
        omega
      simp [service_user_cert, this]
    · exact Or.inl h
    · exact Or.inr (Or.inl h)
    · exact Or.inr (Or.inr h)
  obtain ⟨s0, hg, us, hu, u0, hu0, hc⟩ :
      ∃ s0, svcs[0]? = some s0 ∧ ∃ us, s0.users = some us ∧
        ∃ u0, us[0]? = some u0 ∧ u0.cert = some c0 := by
    unfold service_user_cert at h0
    rcases hg : svcs[0]? with _ | s0 <;> rw [hg] at h0 <;> simp at h0
    rcases hu : s0.users with _ | us <;> rw [hu] at h0 <;> simp at h0
    rcases hu0 : us[0]? with _ | u0 <;> rw [hu0] at h0 <;> simp at h0
    exact ⟨s0, rfl, us, hu, u0, hu0, h0⟩
  rw [validate_statusPasses r hst]
  simp only [register_checkFields, hs, hg, hu, hu0, hc]
  have h0' : service_user_cert svcs 0 = some c0 := h0
  rcases h1 : service_user_cert svcs 1 with _ | c1 <;>
    rcases h2 : service_user_cert svcs 2 with _ | c2 <;>
      rcases h3 : service_user_cert svcs 3 with _ | c3 <;>
        (simp only [register_extract, h0', h1, h2, h3]
         all_goals simp [h1, h2, h3] at hmiss')

/-- Witness for C10: status 0, one single service carrying a cert. -/
theorem extraction_uncaught_beyond_first_witness :
    ({ status := some 0, services := some [{ users := some [{ cert := some 5 }] }] } :
        RegResponse).services = some [{ users := some [{ cert := some 5 }] }] ∧
    statusPasses { status := some 0, services := some [{ users := some [{ cert := some 5 }] }] } ∧
    service_user_cert [{ users := some [{ cert := some 5 }] }] 0 = some 5 ∧
    (([{ users := some [{ cert := some 5 }] }] : List RegService).length < 4 ∨
      service_user_cert [{ users := some [{ cert := some 5 }] }] 1 = none ∨
      service_user_cert [{ users := some [{ cert := some 5 }] }] 2 = none ∨
      service_user_cert [{ users := some [{ cert := some 5 }] }] 3 = none) ∧
    register_validate
        { status := some 0, services := some [{ users := some [{ cert := some 5 }] }] } =
      RegOutcome.uncaught :=
  ⟨rfl, Or.inr rfl, by decide, Or.inl (by decide),
    extraction_uncaught_beyond_first _ _ 5 rfl (Or.inr rfl) (by decide)
      (Or.inl (by decide))⟩

set_option maxRecDepth 32768 in
/-- C8 counterexample: the claim says the request's validation-data
field is the supplied validationData value copied verbatim, but the
code stores `b64decode(validation_data)` (line 314): for the base64
string "AAAA" the stored field is the three zero bytes, not the
supplied four ASCII bytes. -/
theorem validation_data_not_verbatim :
    Option.map RegisterBody.validation_data
      (register_body ["handle"] "uid" sampleIdentity vdSample "U") =
      some [0, 0, 0] ∧
    ([0, 0, 0] : List Nat) ≠ vdSample := by
  constructor
  · rfl
  · decide

/-- C8 (amended): the built request substitutes the per-call values
into the static catalog — every one of the four services' user entries
has `uris` listing exactly the supplied handles in order (each wrapped
as a `{"uri": handle}` dictionary) and `user-id` equal to the supplied
userId — and the request's validation-data field is the base64
decoding of the supplied validationData, not the supplied value
itself. -/
theorem register_body_fields (handles : List String) (user_id : String)
    (identity : IDSIdentity) (validation_data : List Nat) (u : String)
    (body : RegisterBody)
    (h : register_body handles user_id identity validation_data u = some body) :
    (∀ svc ∈ body.services, ∀ usr ∈ svc.users,
      usr.uris = handles.map (fun h2 => { uri := h2 }) ∧
      usr.user_id = user_id) ∧
    b64decode validation_data = some body.validation_data := by
  unfold register_body at h
  rcases hik : identity.encode with _ | ik
  · rw [hik] at h
    cases h
  · rw [hik] at h
    rcases hvd : b64decode validation_data with _ | vd
    · rw [hvd] at h
      cases h
    · rw [hvd] at h
      injection h with h2
      subst h2
      constructor
      · intro svc hsvc usr husr
        simp only [register_services, List.mem_cons, List.not_mem_nil, or_false] at hsvc
        rcases hsvc with h1 | h1 | h1 | h1 <;> subst h1 <;>
          (simp only [madridService, facetimeService, essService, multiplexService,
            List.mem_cons, List.not_mem_nil, or_false] at husr
           subst husr
           exact ⟨rfl, rfl⟩)
      · rfl

set_option maxRecDepth 32768 in
/-- Witness for the amended C8, at a concrete registration call. -/
theorem register_body_fields_witness :
    ∃ body, register_body ["handle"] "uid" sampleIdentity vdSample "U" = some body ∧
      (∀ svc ∈ body.services, ∀ usr ∈ svc.users,
        usr.uris = ["handle"].map (fun h2 => ({ uri := h2 } : Uri)) ∧
        usr.user_id = "uid") ∧
      b64decode vdSample = some body.validation_data := by
  rcases hb : register_body ["handle"] "uid" sampleIdentity vdSample "U" with _ | body
  · exact absurd hb (by decide)
  · exact ⟨body, rfl, register_body_fields _ _ _ _ _ _ hb⟩

set_option maxRecDepth 32768 in
/-- C9 (code bug): the claim — and the commented-out block at lines
177-186 of `identity.py` — say every service entry carrying a
public-message-identity-key carries `identity.encode()` of the
caller-supplied identity, but the active facetime.multi entry (line
190) carries a fixed hardcoded byte literal instead: for the sample
identity, the madrid, ess and multiplex1 entries carry its encoding
while the facetime.multi entry carries the hardcoded blob, which is not
that encoding. -/
theorem facetime_identity_key_hardcoded :
    IDSIdentity.encode sampleIdentity = some sampleContainer ∧
    Option.bind (register_body ["handle"] "uid" sampleIdentity vdSample "U")
      (fun b => service_identity_key b 1) =
      some (PValue.data facetimeIdentityKeyBlob) ∧
    facetimeIdentityKeyBlob ≠ sampleContainer ∧
    Option.bind (register_body ["handle"] "uid" sampleIdentity vdSample "U")
      (fun b => service_identity_key b 0) = some (PValue.data sampleContainer) ∧
    Option.bind (register_body ["handle"] "uid" sampleIdentity vdSample "U")
      (fun b => service_identity_key b 2) = some (PValue.data sampleContainer) ∧
    Option.bind (register_body ["handle"] "uid" sampleIdentity vdSample "U")
      (fun b => service_identity_key b 3) = some (PValue.data sampleContainer) :=
  ⟨rfl, by decide, by decide, by decide, by decide, by decide⟩

end Pypush
